import Mathlib

/-!
# SafeGuard-Navigator: verification of the core algorithms

Shallow embedding of the three computational cores of the repository:

* `backend/app/services/safety_calculator.py` — multi-factor safety scoring,
* `backend/app/services/reputation_calculator.py` and
  `backend/app/api/reputation.py` — Wilson-score reputation and standing,
* `backend/app/services/route_optimizer.py` and
  `backend/app/services/osrm_service.py` — route calculation with fallback.

Python `float` arithmetic is modelled by exact arithmetic: `ℚ` where all the
values that occur are rational, `ℝ` where `math.sqrt` / trigonometry appear.
Python `int(x)` (truncation toward zero) is modelled by `pyInt` / `pyIntR`.
External collaborators (HTTP providers, the OSRM server, `random`) are
parameters of the embedded functions.
-/

/-- Python `int(x)` applied to a float: truncation toward zero, on `ℚ`. -/
def pyInt (q : ℚ) : ℤ := if 0 ≤ q then ⌊q⌋ else ⌈q⌉

/-- Python `int(x)` applied to a float: truncation toward zero, on `ℝ`. -/
noncomputable def pyIntR (x : ℝ) : ℤ := if 0 ≤ x then ⌊x⌋ else ⌈x⌉

/-! ## Safety calculator (`safety_calculator.py`)

The four factor helpers each wrap their body in `try/except`, defaulting to
`50` on an exception; the provider results they consume are modelled as
explicit inputs, with `Except.error` standing for an exception raised inside
the helper body. -/

/-- Source `_get_lighting_score`: VIIRS brightness (0–1) scaled to 0–100, a dark-spot
penalty (10 per spot within 500 m), a POI-density bonus, clamp to [0,100],
then a time-of-day derating; `50` if the body raises. -/
def lighting_score (time_of_day : String) : Except Unit (ℚ × ℕ × ℕ) → ℤ
  | .error _ => 50
  | .ok (viirs_brightness, dark_spots, poi_count) =>
      let viirs_score : ℤ := pyInt (viirs_brightness * 100)
      let dark_spot_penalty : ℤ := (dark_spots : ℤ) * 10
      let poi_bonus : ℤ :=
        if poi_count > 50 then 20 else if poi_count > 20 then 10
        else if poi_count > 5 then 5 else 0
      let base_score : ℤ := max 0 (min 100 (viirs_score + poi_bonus - dark_spot_penalty))
      let derated : ℚ :=
        if time_of_day = "night" then (base_score : ℚ) * 0.7
        else if time_of_day = "evening" then (base_score : ℚ) * 0.85
        else (base_score : ℚ)
      pyInt derated

/-- Source `_get_footfall_score`: step function of the POI count within 200 m;
`50` if the body raises. -/
def footfall_score : Except Unit ℕ → ℤ
  | .error _ => 50
  | .ok poi_count =>
      if poi_count > 100 then 95 else if poi_count > 50 then 80
      else if poi_count > 20 then 65 else if poi_count > 5 then 45 else 25

/-- Source `_get_hazard_score`: 15 hazard points per dark spot within 300 m, less a
road-quality bonus from the POI count within 100 m, clamped to [0,100];
`50` if the body raises. Higher = more hazardous. -/
def hazard_score : Except Unit (ℕ × ℕ) → ℤ
  | .error _ => 50
  | .ok (dark_spots, poi_count) =>
      let dark_spot_hazards : ℤ := (dark_spots : ℤ) * 15
      let road_quality_bonus : ℤ :=
        if poi_count > 30 then 20 else if poi_count > 15 then 10
        else if poi_count > 5 then 5 else 0
      max 0 (min 100 (dark_spot_hazards - road_quality_bonus))

/-- Source `_get_proximity_score`: step function of the emergency-POI count within
1 km; `50` if the body raises. -/
def proximity_score : Except Unit ℕ → ℤ
  | .error _ => 50
  | .ok emergency_poi_count =>
      if emergency_poi_count > 10 then 90 else if emergency_poi_count > 5 then 75
      else if emergency_poi_count > 2 then 60 else if emergency_poi_count > 0 then 40 else 20

/-- The user-type derating applied at the end of `calculate_safety_score`:
`0.95` for `"two_wheeler"`, `0.90` for `"cyclist"`, none otherwise. -/
def user_type_multiplier (user_type : String) : ℚ :=
  if user_type = "two_wheeler" then 0.95
  else if user_type = "cyclist" then 0.90 else 1

/-- The weighted blend inside `calculate_safety_score`: fixed weights
lighting 0.30, footfall 0.25, hazards 0.20 (inverted as `100 - hazard`),
proximity 0.25. -/
def weighted_safety (lighting footfall hazard proximity : ℤ) : ℚ :=
  (lighting : ℚ) * 0.30 + (footfall : ℚ) * 0.25 +
    ((100 : ℚ) - (hazard : ℚ)) * 0.20 + (proximity : ℚ) * 0.25

/-- The combination step of `calculate_safety_score`: weighted blend, user-type
derating, `int()` conversion and clamp to [0,100]. -/
def combine_safety_score (lighting footfall hazard proximity : ℤ) (user_type : String) : ℤ :=
  max 0 (min 100 (pyInt (weighted_safety lighting footfall hazard proximity *
    user_type_multiplier user_type)))

/-- Source `calculate_safety_score`: gather the four factor scores from their
provider inputs and combine them. -/
def calculate_safety_score (lres : Except Unit (ℚ × ℕ × ℕ)) (fres : Except Unit ℕ)
    (hres : Except Unit (ℕ × ℕ)) (pres : Except Unit ℕ)
    (user_type time_of_day : String) : ℤ :=
  combine_safety_score (lighting_score time_of_day lres) (footfall_score fres)
    (hazard_score hres) (proximity_score pres) user_type

/-! ## Reputation engine (`reputation_calculator.py`, `api/reputation.py`)

`math.sqrt` forces the model into `ℝ`. -/

/-- Source `ReputationCalculator.calculate_wilson_score`: the Wilson score lower
bound, `0.0` when `total = 0`. -/
noncomputable def calculate_wilson_score (positive total : ℕ) (z : ℝ) : ℝ :=
  if total = 0 then 0
  else
    ((((positive : ℝ) / (total : ℝ)) + z * z / (2 * (total : ℝ))) -
        z * Real.sqrt ((((positive : ℝ) / (total : ℝ)) *
            (1 - ((positive : ℝ) / (total : ℝ))) +
          z * z / (4 * (total : ℝ))) / (total : ℝ))) /
      (1 + z * z / (total : ℝ))

/-- Source `ReputationCalculator.update_reputation_score`: increment the counts and
recompute the Wilson score (default `z = 1.96`). -/
noncomputable def update_reputation_score (current_positive current_total : ℕ)
    (new_report_verified : Bool) : ℝ × ℕ × ℕ :=
  let new_total := current_total + 1
  let new_positive := current_positive + (if new_report_verified then 1 else 0)
  (calculate_wilson_score new_positive new_total 1.96, new_positive, new_total)

/-- Modelled from the spec: the displayed Wilson-score formula of §4.2
(`p`, `denom`, `center`, `margin`), with the `total = 0` guard of the stated
contract; to be compared with `calculate_wilson_score` from the source. -/
noncomputable def wilson_spec (positive total : ℕ) (z : ℝ) : ℝ :=
  if total = 0 then 0
  else
    ((((positive : ℝ) / (total : ℝ)) + z ^ 2 / (2 * (total : ℝ))) -
        z * Real.sqrt ((((positive : ℝ) / (total : ℝ)) *
            (1 - ((positive : ℝ) / (total : ℝ))) +
          z ^ 2 / (4 * (total : ℝ))) / (total : ℝ))) /
      (1 + z ^ 2 / (total : ℝ))

open Classical in
/-- The standing classification of `update_user_reputation`
(`api/reputation.py`), evaluated on the updated score and total. -/
noncomputable def community_standing (score : ℝ) (total : ℕ) : String :=
  if total < 10 then "new"
  else if score > 0.8 ∧ total > 50 then "expert"
  else if score > 0.6 ∧ total > 20 then "verified"
  else if score > 0.4 then "trusted"
  else "new"

/-- Normal form of the Wilson lower bound used in the proofs:
`p` the observed proportion and `u = z / √total`. -/
noncomputable def wilsonU (p u : ℝ) : ℝ :=
  (p + u ^ 2 / 2 - u * Real.sqrt (p * (1 - p) + u ^ 2 / 4)) / (1 + u ^ 2)

/-! ## Route optimizer (`route_optimizer.py`, `osrm_service.py`)

`OSRMService.get_route` never raises: every failure mode (service not
available, HTTP error, routing failure, timeout, request error, unexpected
exception) is caught and replaced by a response containing a single
placeholder route with distance 0, duration 0 and no waypoints. -/

/-- A (latitude, longitude) pair. -/
structure Coord where
  latitude : ℚ
  longitude : ℚ
deriving DecidableEq

/-- The schema of `RouteRequest` (start, end, user type,
safety preference 0–100). -/
structure RouteRequest where
  start : Coord
  stop : Coord
  user_type : String
  safety_preference : ℚ

/-- One processed route of an OSRM response. -/
structure OSRMRouteData where
  distance_meters : ℚ
  duration_seconds : ℚ
  waypoints : List Coord
  polyline : String

/-- The outcomes of the OSRM HTTP exchange inside `OSRMService.get_route`. -/
inductive OSRMOutcome where
  /-- HTTP 200 with OSRM code `Ok`: the processed list of routes. -/
  | ok (routes : List OSRMRouteData)
  /-- HTTP 200 but OSRM code not `Ok` (e.g. no route found). -/
  | routingFailed
  /-- HTTP 400 (invalid request). -/
  | badRequest
  /-- Any other HTTP status (service unavailable), or the service was never
  set up (`osrm_available = False`). -/
  | unavailable
  /-- `requests` timeout. -/
  | timeout
  /-- Other `requests` error, or an unexpected exception. -/
  | requestError

/-- The placeholder route `get_route` substitutes on every failure. -/
def osrm_placeholder_route : OSRMRouteData :=
  { distance_meters := 0, duration_seconds := 0, waypoints := [], polyline := "" }

/-- Source `OSRMService.get_route`: the routes list of the returned response.
On every failure mode it is the one placeholder route; it is never empty
except when OSRM itself answers `Ok` with no routes. -/
def osrm_get_route : OSRMOutcome → List OSRMRouteData
  | .ok routes => routes
  | _ => [osrm_placeholder_route]

/-- Source `RouteOptimizer.calculate_route`, weight computation:
`time_weight = 0.3 + (safety_preference / 100) * 0.4`. -/
def time_weight (safety_preference : ℚ) : ℚ :=
  0.3 + safety_preference / 100 * 0.4

/-- Source: `safety_weight = 1 - time_weight`. -/
def safety_weight (safety_preference : ℚ) : ℚ :=
  1 - time_weight safety_preference

/-- One route of the response (`main_route` and the alternatives share this
shape; the `description`/`id` strings are presentation-only and omitted). -/
structure RouteOption where
  distance_meters : ℚ
  duration_seconds : ℚ
  safety_score : ℤ
  time_weight : ℚ
  safety_weight : ℚ
  waypoints : List Coord
  polyline : String

/-- Source `RouteResponse`: the primary route plus the three named alternatives. -/
structure RouteResponse where
  routes : List RouteOption
  safest : RouteOption
  fastest : RouteOption
  balanced : RouteOption

/-- The per-location provider data consumed by `calculate_safety_score`;
external collaborator, a parameter of the route model. -/
structure SafetyEnv where
  lighting : ℚ → ℚ → Except Unit (ℚ × ℕ × ℕ)
  footfall : ℚ → ℚ → Except Unit ℕ
  hazard : ℚ → ℚ → Except Unit (ℕ × ℕ)
  proximity : ℚ → ℚ → Except Unit ℕ

/-- Source `calculate_safety_score(lat, lon, user_type)` as invoked per waypoint by
the route optimizer (`time_of_day` left at its default `"day"`). -/
def safety_score_at (env : SafetyEnv) (lat lon : ℚ) (user_type : String) : ℤ :=
  calculate_safety_score (env.lighting lat lon) (env.footfall lat lon)
    (env.hazard lat lon) (env.proximity lat lon) user_type "day"

/-- Source `RouteOptimizer._calculate_distance`: great-circle (haversine) distance in
meters; `math` trigonometry forces `ℝ`. -/
noncomputable def haversine_distance (lat1 lon1 lat2 lon2 : ℝ) : ℝ :=
  let rlat1 := lat1 * (Real.pi / 180)
  let rlon1 := lon1 * (Real.pi / 180)
  let rlat2 := lat2 * (Real.pi / 180)
  let rlon2 := lon2 * (Real.pi / 180)
  let a := Real.sin ((rlat2 - rlat1) / 2) ^ 2 +
    Real.cos rlat1 * Real.cos rlat2 * Real.sin ((rlon2 - rlon1) / 2) ^ 2
  2 * Real.arcsin (Real.sqrt a) * 6371000

/-- Source `RouteOptimizer._generate_waypoints`: `num_points` linearly interpolated
points strictly between start and end. -/
def generate_waypoints (start stop : Coord) (num_points : ℕ) : List Coord :=
  (List.range num_points).map fun i =>
    let ratio : ℚ := ((i : ℚ) + 1) / ((num_points : ℚ) + 1)
    { latitude := start.latitude + (stop.latitude - start.latitude) * ratio,
      longitude := start.longitude + (stop.longitude - start.longitude) * ratio }

/-- Sum of haversine distances over consecutive waypoints
(`RouteOptimizer._calculate_route_metrics`). -/
noncomputable def total_haversine : List Coord → ℝ
  | a :: b :: rest =>
      haversine_distance a.latitude a.longitude b.latitude b.longitude +
        total_haversine (b :: rest)
  | _ => 0

/-- Source `RouteOptimizer._calculate_route_metrics`: `int` distance in meters and
`int` duration at 5 km/h. -/
noncomputable def route_metrics (waypoints : List Coord) : ℤ × ℤ :=
  let total_distance := total_haversine waypoints
  (pyIntR total_distance, pyIntR (total_distance / 1000 / 5 * 3600))

/-- Source `RouteOptimizer._calculate_safety_score` (mock): base 70 adjusted by user
type, plus a random offset in [-20, 20], clamped to [0,100]; the random draw
is a parameter. -/
def mock_safety_score (draw : ℤ) (user_type : String) : ℤ :=
  let safety_base : ℤ := 70 +
    (if user_type = "pedestrian" then 5
     else if user_type = "two_wheeler" then -5
     else if user_type = "cyclist" then -10 else 0)
  max 0 (min 100 (safety_base + draw))

/-- Source `RouteOptimizer._create_mock_route`: the fallback response built from
linearly interpolated waypoints, haversine metrics and mock safety scores
(`rand` supplies the per-waypoint random draws). -/
noncomputable def create_mock_route (rand : ℕ → ℤ) (req : RouteRequest) : RouteResponse :=
  let waypoints := req.start :: (generate_waypoints req.start req.stop 5 ++ [req.stop])
  let metrics := route_metrics waypoints
  let safety_scores := (List.range waypoints.length).map
    fun i => mock_safety_score (rand i) req.user_type
  let avg : ℚ := ((safety_scores.map (Int.cast (R := ℚ))).sum) / (safety_scores.length : ℚ)
  let tw := time_weight req.safety_preference
  let sw := safety_weight req.safety_preference
  let main : RouteOption :=
    { distance_meters := (metrics.1 : ℚ), duration_seconds := (metrics.2 : ℚ),
      safety_score := pyInt avg, time_weight := tw, safety_weight := sw,
      waypoints := (waypoints.drop 1).dropLast, polyline := "mock_polyline_string" }
  { routes := [main],
    safest := { main with
      safety_score := min 100 (pyInt (avg * 1.2)),
      duration_seconds := ((pyInt ((metrics.2 : ℚ) * 1.3) : ℤ) : ℚ) },
    fastest := { main with
      safety_score := max 0 (pyInt (avg * 0.8)),
      duration_seconds := ((pyInt ((metrics.2 : ℚ) * 0.7) : ℤ) : ℚ) },
    balanced := main }

/-- Source `RouteOptimizer.calculate_route`: use the OSRM response if it contains a
route (every failure mode does, via the placeholder), falling back to the
mock route only when the routes list is empty. -/
noncomputable def calculate_route (env : SafetyEnv) (rand : ℕ → ℤ)
    (outcome : OSRMOutcome) (req : RouteRequest) : RouteResponse :=
  match osrm_get_route outcome with
  | [] => create_mock_route rand req
  | route_data :: _ =>
      let safety_scores := route_data.waypoints.map
        fun w => safety_score_at env w.latitude w.longitude req.user_type
      let avg : ℚ := if safety_scores = [] then 70
        else ((safety_scores.map (Int.cast (R := ℚ))).sum) / (safety_scores.length : ℚ)
      let tw := time_weight req.safety_preference
      let sw := safety_weight req.safety_preference
      let main : RouteOption :=
        { distance_meters := route_data.distance_meters,
          duration_seconds := route_data.duration_seconds,
          safety_score := pyInt avg, time_weight := tw, safety_weight := sw,
          waypoints := route_data.waypoints, polyline := route_data.polyline }
      { routes := [main],
        safest := { main with
          safety_score := min 100 (pyInt (avg * 1.2)),
          duration_seconds := ((pyInt (route_data.duration_seconds * 1.3) : ℤ) : ℚ) },
        fastest := { main with
          safety_score := max 0 (pyInt (avg * 0.8)),
          duration_seconds := ((pyInt (route_data.duration_seconds * 0.7) : ℤ) : ℚ) },
        balanced := main }

/-! ## Test fixtures -/

/-- A provider environment whose calls all succeed with zero counts
(a zero-POI region). -/
def env_zero : SafetyEnv :=
  { lighting := fun _ _ => .ok (0, 0, 0), footfall := fun _ _ => .ok 0,
    hazard := fun _ _ => .ok (0, 0), proximity := fun _ _ => .ok 0 }

/-- A fixed random stream for the mock-route fallback. -/
def rand_zero : ℕ → ℤ := fun _ => 0

/-- The end-to-end scenario request of the spec: Chennai coordinates with
safety preference 80. -/
def chennai_request : RouteRequest :=
  { start := { latitude := 13.0827, longitude := 80.2707 },
    stop := { latitude := 13.0398, longitude := 80.2342 },
    user_type := "pedestrian", safety_preference := 80 }

/-! ## Helper lemmas -/

theorem pyInt_of_nonneg {q : ℚ} (h : 0 ≤ q) : pyInt q = ⌊q⌋ := if_pos h

/-- For a positive total and nonnegative `z`, `calculate_wilson_score`
is `wilsonU` at `p = positive/total`, `u = z/√total`. -/
theorem calculate_wilson_score_eq_wilsonU (positive total : ℕ) (z : ℝ)
    (ht : 1 ≤ total) (hz : 0 ≤ z) (hpt : positive ≤ total) :
    calculate_wilson_score positive total z =
      wilsonU ((positive : ℝ) / (total : ℝ)) (z / Real.sqrt (total : ℝ)) := by
  have htpos : 0 < total := ht
  have ht0 : (0 : ℝ) < (total : ℝ) := by exact_mod_cast htpos
  have htne : total ≠ 0 := by omega
  have hp0 : (0 : ℝ) ≤ (positive : ℝ) / (total : ℝ) :=
    div_nonneg (Nat.cast_nonneg _) ht0.le
  have hp1 : (positive : ℝ) / (total : ℝ) ≤ 1 := by
    rw [div_le_one ht0]; exact_mod_cast hpt
  have hsqrtT : 0 < Real.sqrt (total : ℝ) := Real.sqrt_pos.2 ht0
  have hu2 : (z / Real.sqrt (total : ℝ)) ^ 2 = z ^ 2 / (total : ℝ) := by
    rw [div_pow, Real.sq_sqrt ht0.le]
  set p : ℝ := (positive : ℝ) / (total : ℝ) with hp
  have hX : 0 ≤ p * (1 - p) := mul_nonneg hp0 (by linarith)
  have hrad : p * (1 - p) + z * z / (4 * (total : ℝ)) =
      p * (1 - p) + (z / Real.sqrt (total : ℝ)) ^ 2 / 4 := by
    rw [hu2]; ring
  unfold calculate_wilson_score wilsonU
  rw [if_neg htne]
  have hmargin : z * Real.sqrt ((p * (1 - p) + z * z / (4 * (total : ℝ))) / (total : ℝ)) =
      (z / Real.sqrt (total : ℝ)) *
        Real.sqrt (p * (1 - p) + (z / Real.sqrt (total : ℝ)) ^ 2 / 4) := by
    rw [← hrad, Real.sqrt_div (add_nonneg hX (by positivity)) (total : ℝ)]
    ring
  rw [hmargin, hu2]
  ring_nf

theorem wilsonU_nonneg {p u : ℝ} (hp0 : 0 ≤ p) (hp1 : p ≤ 1) (hu : 0 ≤ u) :
    0 ≤ wilsonU p u := by
  unfold wilsonU
  have hrad : 0 ≤ p * (1 - p) + u ^ 2 / 4 := by
    have := mul_nonneg hp0 (by linarith : (0:ℝ) ≤ 1 - p)
    positivity
  set s : ℝ := Real.sqrt (p * (1 - p) + u ^ 2 / 4) with hs
  have hs0 : 0 ≤ s := Real.sqrt_nonneg _
  have hs2 : s ^ 2 = p * (1 - p) + u ^ 2 / 4 := Real.sq_sqrt hrad
  have hkey : u * s ≤ p + u ^ 2 / 2 := by
    have hsq : (u * s) ^ 2 ≤ (p + u ^ 2 / 2) ^ 2 := by nlinarith [sq_nonneg p, sq_nonneg (p * u)]
    calc u * s = Real.sqrt ((u * s) ^ 2) := (Real.sqrt_sq (mul_nonneg hu hs0)).symm
      _ ≤ Real.sqrt ((p + u ^ 2 / 2) ^ 2) := Real.sqrt_le_sqrt hsq
      _ = p + u ^ 2 / 2 := Real.sqrt_sq (by positivity)
  have hden : (0:ℝ) < 1 + u ^ 2 := by positivity
  exact div_nonneg (by linarith) hden.le

theorem wilsonU_le_one {p u : ℝ} (hp0 : 0 ≤ p) (hp1 : p ≤ 1) (hu : 0 ≤ u) :
    wilsonU p u ≤ 1 := by
  unfold wilsonU
  have hs0 : 0 ≤ Real.sqrt (p * (1 - p) + u ^ 2 / 4) := Real.sqrt_nonneg _
  have hus : 0 ≤ u * Real.sqrt (p * (1 - p) + u ^ 2 / 4) := mul_nonneg hu hs0
  have hden : (0:ℝ) < 1 + u ^ 2 := by positivity
  rw [div_le_one hden]
  nlinarith [sq_nonneg u]

theorem wilsonU_mono {p₁ p₂ u : ℝ} (h0 : 0 ≤ p₁) (h12 : p₁ ≤ p₂) (h1 : p₂ ≤ 1)
    (hu : 0 ≤ u) : wilsonU p₁ u ≤ wilsonU p₂ u := by
  unfold wilsonU
  have hrad₁ : 0 ≤ p₁ * (1 - p₁) + u ^ 2 / 4 := by
    have := mul_nonneg h0 (by linarith : (0:ℝ) ≤ 1 - p₁)
    positivity
  have hrad₂ : 0 ≤ p₂ * (1 - p₂) + u ^ 2 / 4 := by
    have := mul_nonneg (by linarith : (0:ℝ) ≤ p₂) (by linarith : (0:ℝ) ≤ 1 - p₂)
    positivity
  set s₁ : ℝ := Real.sqrt (p₁ * (1 - p₁) + u ^ 2 / 4) with hs₁
  set s₂ : ℝ := Real.sqrt (p₂ * (1 - p₂) + u ^ 2 / 4) with hs₂
  have hs₁0 : 0 ≤ s₁ := Real.sqrt_nonneg _
  have hs₂0 : 0 ≤ s₂ := Real.sqrt_nonneg _
  have hs₁2 : s₁ ^ 2 = p₁ * (1 - p₁) + u ^ 2 / 4 := Real.sq_sqrt hrad₁
  have hs₂2 : s₂ ^ 2 = p₂ * (1 - p₂) + u ^ 2 / 4 := Real.sq_sqrt hrad₂
  have hu2 : Real.sqrt (u ^ 2 / 4) = u / 2 := by
    rw [show u ^ 2 / 4 = (u / 2) ^ 2 by ring]
    exact Real.sqrt_sq (by positivity)
  have hs₁u : u / 2 ≤ s₁ := by
    rw [← hu2]
    exact Real.sqrt_le_sqrt (by nlinarith)
  have hs₂u : u / 2 ≤ s₂ := by
    rw [← hu2]
    exact Real.sqrt_le_sqrt (by nlinarith)
  have hnum : u * s₂ ≤ (p₂ - p₁) + u * s₁ := by
    rcases eq_or_lt_of_le (add_nonneg hs₁0 hs₂0 : 0 ≤ s₁ + s₂) with hzero | hpos
    · have h₁ : s₁ = 0 := by linarith [hs₂0, hs₁0]
      have h₂ : s₂ = 0 := by linarith [hs₂0, hs₁0]
      have hu0 : u = 0 := by nlinarith [hs₁u, h₁]
      simp [h₁, h₂, hu0]; linarith
    · have hkey : 0 ≤ ((p₂ - p₁) + u * s₁ - u * s₂) * (s₁ + s₂) := by
        have h1 : 0 ≤ (p₂ - p₁) * (s₁ - u / 2) :=
          mul_nonneg (by linarith) (by linarith)
        have h2 : 0 ≤ (p₂ - p₁) * (s₂ - u / 2) :=
          mul_nonneg (by linarith) (by linarith)
        have h3 : 0 ≤ (p₂ - p₁) * (u * (p₁ + p₂)) :=
          mul_nonneg (by linarith) (mul_nonneg hu (by linarith))
        nlinarith [hs₁2, hs₂2]
      nlinarith [hkey, hpos]
  have hden : (0:ℝ) < 1 + u ^ 2 := by positivity
  exact (div_le_div_right hden).mpr (by linarith)

/-! ## Claim theorems: safety calculator -/

/-- Bounds on the user-type derating: it is between 0.9 and 1 for every
user-type string. -/
theorem user_type_multiplier_bounds (user_type : String) :
    9/10 ≤ user_type_multiplier user_type ∧ user_type_multiplier user_type ≤ 1 := by
  unfold user_type_multiplier
  split_ifs <;> norm_num

/-- If `0 ≤ a ≤ 82`, `b ≤ 100` and `a + 18 ≤ b` then the clamped truncation of
`a` is strictly below that of `b`. -/
theorem clamp_pyInt_lt {a b : ℚ} (ha0 : 0 ≤ a) (ha : a ≤ 82) (hb : b ≤ 100)
    (hab : a + 18 ≤ b) :
    max 0 (min 100 (pyInt a)) < max 0 (min 100 (pyInt b)) := by
  have hb0 : 0 ≤ b := by linarith
  rw [pyInt_of_nonneg ha0, pyInt_of_nonneg hb0]
  have hfa0 : (0:ℤ) ≤ ⌊a⌋ := Int.le_floor.mpr (by exact_mod_cast ha0)
  have hfa : ⌊a⌋ ≤ 82 := by
    have := (Int.floor_le a).trans ha
    exact_mod_cast this
  have hfb0 : (0:ℤ) ≤ ⌊b⌋ := Int.le_floor.mpr (by exact_mod_cast hb0)
  have hfb : ⌊b⌋ ≤ 100 := by
    have := (Int.floor_le b).trans hb
    exact_mod_cast this
  have hstep : ⌊a⌋ + 18 ≤ ⌊b⌋ := by
    have h18 : ⌊a + ((18:ℤ):ℚ)⌋ ≤ ⌊b⌋ := Int.floor_le_floor (by push_cast; linarith)
    rwa [Int.floor_add_int] at h18
  rw [min_eq_right (by omega : ⌊a⌋ ≤ 100), min_eq_right hfb,
    max_eq_right hfa0, max_eq_right hfb0]
  omega

/-- C1: for factor scores in [0,100] the combined safety score is in [0,100],
and hazards = 100 yields a strictly smaller score than hazards = 0, the other
factors and the user type fixed. -/
theorem safety_score_range_and_hazard_strict_decrease
    (l f h p : ℤ) (user_type : String)
    (hl0 : 0 ≤ l) (hl1 : l ≤ 100) (hf0 : 0 ≤ f) (hf1 : f ≤ 100)
    (hh0 : 0 ≤ h) (hh1 : h ≤ 100) (hp0 : 0 ≤ p) (hp1 : p ≤ 100) :
    (0 ≤ combine_safety_score l f h p user_type ∧
      combine_safety_score l f h p user_type ≤ 100) ∧
    combine_safety_score l f 100 p user_type < combine_safety_score l f 0 p user_type := by
  constructor
  · exact ⟨le_max_left _ _, max_le (by norm_num) (min_le_left _ _)⟩
  have hlq0 : (0:ℚ) ≤ (l:ℚ) := by exact_mod_cast hl0
  have hlq1 : (l:ℚ) ≤ 100 := by exact_mod_cast hl1
  have hfq0 : (0:ℚ) ≤ (f:ℚ) := by exact_mod_cast hf0
  have hfq1 : (f:ℚ) ≤ 100 := by exact_mod_cast hf1
  have hpq0 : (0:ℚ) ≤ (p:ℚ) := by exact_mod_cast hp0
  have hpq1 : (p:ℚ) ≤ 100 := by exact_mod_cast hp1
  obtain ⟨hm0, hm1⟩ := user_type_multiplier_bounds user_type
  have hw100_0 : 0 ≤ weighted_safety l f 100 p := by
    unfold weighted_safety; norm_num; linarith
  have hw100_80 : weighted_safety l f 100 p ≤ 80 := by
    unfold weighted_safety; norm_num; linarith
  have hw_eq : weighted_safety l f 0 p = weighted_safety l f 100 p + 20 := by
    unfold weighted_safety; push_cast; ring
  unfold combine_safety_score
  apply clamp_pyInt_lt
  · exact mul_nonneg hw100_0 (by linarith)
  · exact le_trans (mul_le_of_le_one_right hw100_0 hm1) (by linarith)
  · rw [hw_eq]
    exact le_trans (mul_le_of_le_one_right (by linarith) hm1) (by linarith)
  · rw [hw_eq]; nlinarith

/-- Closed witness for the hypotheses of
`safety_score_range_and_hazard_strict_decrease`, at factor scores 50 and the
pedestrian user type. -/
theorem safety_score_range_and_hazard_strict_decrease_witness :
    (0 ≤ combine_safety_score 50 50 50 50 "pedestrian" ∧
      combine_safety_score 50 50 50 50 "pedestrian" ≤ 100) ∧
    combine_safety_score 50 50 100 50 "pedestrian" <
      combine_safety_score 50 50 0 50 "pedestrian" :=
  safety_score_range_and_hazard_strict_decrease 50 50 50 50 "pedestrian"
    (by decide) (by decide) (by decide) (by decide)
    (by decide) (by decide) (by decide) (by decide)

/-- C8 counterexample: at lighting 99 and the other factors 0, the pedestrian
score is the blend truncated (49), not the blend rounded to nearest and
clamped (50): `int()` truncates, it does not round. -/
theorem pedestrian_score_ne_round_blend :
    combine_safety_score 99 0 0 0 "pedestrian" ≠
      max 0 (min 100 (round (weighted_safety 99 0 0 0))) := by
  have h1 : combine_safety_score 99 0 0 0 "pedestrian" = 49 := by
    simp [combine_safety_score, weighted_safety, user_type_multiplier]
    norm_num [pyInt]
  have h2 : round (weighted_safety 99 0 0 0) = 50 := by
    rw [round_eq]
    unfold weighted_safety
    norm_num
  rw [h1, h2]
  decide

/-- C8 amended: for factor scores in [0,100] the pedestrian score equals the
weighted blend `0.30·lighting + 0.25·footfall + 0.20·(100 − hazards) +
0.25·proximity` truncated toward zero (= its floor, the blend being
nonnegative); the clamp to [0,100] never binds on valid inputs. -/
theorem pedestrian_score_eq_floor_blend
    (l f h p : ℤ)
    (hl0 : 0 ≤ l) (hl1 : l ≤ 100) (hf0 : 0 ≤ f) (hf1 : f ≤ 100)
    (hh0 : 0 ≤ h) (hh1 : h ≤ 100) (hp0 : 0 ≤ p) (hp1 : p ≤ 100) :
    combine_safety_score l f h p "pedestrian" = ⌊weighted_safety l f h p⌋ := by
  have hlq0 : (0:ℚ) ≤ (l:ℚ) := by exact_mod_cast hl0
  have hlq1 : (l:ℚ) ≤ 100 := by exact_mod_cast hl1
  have hfq0 : (0:ℚ) ≤ (f:ℚ) := by exact_mod_cast hf0
  have hfq1 : (f:ℚ) ≤ 100 := by exact_mod_cast hf1
  have hhq0 : (0:ℚ) ≤ (h:ℚ) := by exact_mod_cast hh0
  have hhq1 : (h:ℚ) ≤ 100 := by exact_mod_cast hh1
  have hpq0 : (0:ℚ) ≤ (p:ℚ) := by exact_mod_cast hp0
  have hpq1 : (p:ℚ) ≤ 100 := by exact_mod_cast hp1
  have hw0 : 0 ≤ weighted_safety l f h p := by
    unfold weighted_safety; norm_num; linarith
  have hw100 : weighted_safety l f h p ≤ 100 := by
    unfold weighted_safety; norm_num; linarith
  have hmul : user_type_multiplier "pedestrian" = 1 := by
    simp [user_type_multiplier]
  unfold combine_safety_score
  rw [hmul, mul_one, pyInt_of_nonneg hw0]
  have hfl0 : (0:ℤ) ≤ ⌊weighted_safety l f h p⌋ :=
    Int.le_floor.mpr (by exact_mod_cast hw0)
  have hfl100 : ⌊weighted_safety l f h p⌋ ≤ 100 := by
    have := (Int.floor_le (weighted_safety l f h p)).trans hw100
    exact_mod_cast this
  rw [min_eq_right hfl100, max_eq_right hfl0]

/-- Closed witness for the hypotheses of `pedestrian_score_eq_floor_blend`,
at lighting 99 and the other factors 0. -/
theorem pedestrian_score_eq_floor_blend_witness :
    combine_safety_score 99 0 0 0 "pedestrian" = ⌊weighted_safety 99 0 0 0⌋ :=
  pedestrian_score_eq_floor_blend 99 0 0 0
    (by decide) (by decide) (by decide) (by decide)
    (by decide) (by decide) (by decide) (by decide)

/-- C6 counterexample: in a zero-POI / no-data region where every provider
call succeeds with an empty or zero result, the footfall factor is 25 (not
50) and the overall pedestrian day score is 31 (not 50). -/
theorem zero_data_region_not_all_50 :
    footfall_score (.ok 0) ≠ 50 ∧
    calculate_safety_score (.ok (0, 0, 0)) (.ok 0) (.ok (0, 0)) (.ok 0)
      "pedestrian" "day" ≠ 50 := by
  constructor
  · decide
  · have h : calculate_safety_score (.ok (0, 0, 0)) (.ok 0) (.ok (0, 0)) (.ok 0)
        "pedestrian" "day" = 31 := by
      simp [calculate_safety_score, combine_safety_score, weighted_safety,
        user_type_multiplier, lighting_score, footfall_score, hazard_score,
        proximity_score, pyInt]
      norm_num
    rw [h]
    decide

/-- C6 amended: a factor defaults to 50 only when its computation raises, in
which case all four factors are 50 and the overall pedestrian score is 50 for
every time of day; when every provider succeeds with an empty or zero result
the factors are lighting 0, footfall 25, hazards 0, proximity 20 and the
overall pedestrian day score is 31. No provider outcome is fatal: the score
functions are total. -/
theorem safety_defaults_and_zero_data (tod : String) :
    lighting_score tod (.error ()) = 50 ∧
    footfall_score (.error ()) = 50 ∧
    hazard_score (.error ()) = 50 ∧
    proximity_score (.error ()) = 50 ∧
    calculate_safety_score (.error ()) (.error ()) (.error ()) (.error ())
      "pedestrian" tod = 50 ∧
    lighting_score "day" (.ok (0, 0, 0)) = 0 ∧
    footfall_score (.ok 0) = 25 ∧
    hazard_score (.ok (0, 0)) = 0 ∧
    proximity_score (.ok 0) = 20 ∧
    calculate_safety_score (.ok (0, 0, 0)) (.ok 0) (.ok (0, 0)) (.ok 0)
      "pedestrian" "day" = 31 := by
  refine ⟨rfl, rfl, rfl, rfl, ?_, ?_, rfl, ?_, rfl, ?_⟩
  · show combine_safety_score 50 50 50 50 "pedestrian" = 50
    simp [combine_safety_score, weighted_safety, user_type_multiplier]
    norm_num [pyInt]
  · simp [lighting_score, pyInt]
  · simp [hazard_score]
  · simp [calculate_safety_score, combine_safety_score, weighted_safety,
      user_type_multiplier, lighting_score, footfall_score, hazard_score,
      proximity_score, pyInt]
    norm_num

/-! ## Claim theorems: reputation engine -/

/-- C2: `calculate_wilson_score` returns 0 when `total = 0` for any `z`;
otherwise it computes exactly the Wilson formula of the spec; and for valid counts
at `z = 1.96` its value lies in [0, 1]. -/
theorem wilson_score_contract :
    (∀ (positive : ℕ) (z : ℝ), calculate_wilson_score positive 0 z = 0) ∧
    (∀ (positive total : ℕ) (z : ℝ),
      calculate_wilson_score positive total z = wilson_spec positive total z) ∧
    (∀ (positive total : ℕ), positive ≤ total → 1 ≤ total →
      0 ≤ calculate_wilson_score positive total 1.96 ∧
        calculate_wilson_score positive total 1.96 ≤ 1) := by
  refine ⟨?_, ?_, ?_⟩
  · intro positive z
    simp [calculate_wilson_score]
  · intro positive total z
    unfold calculate_wilson_score wilson_spec
    split_ifs with h
    · rfl
    · ring_nf
  · intro positive total hpt ht
    have hz : (0:ℝ) ≤ 1.96 := by norm_num
    have ht0 : (0:ℝ) < (total : ℝ) := by exact_mod_cast (ht : 0 < total)
    rw [calculate_wilson_score_eq_wilsonU positive total 1.96 ht hz hpt]
    have hp0 : (0:ℝ) ≤ (positive : ℝ) / (total : ℝ) :=
      div_nonneg (Nat.cast_nonneg _) ht0.le
    have hp1 : (positive : ℝ) / (total : ℝ) ≤ 1 := by
      rw [div_le_one ht0]; exact_mod_cast hpt
    have hu : (0:ℝ) ≤ 1.96 / Real.sqrt (total : ℝ) := by positivity
    exact ⟨wilsonU_nonneg hp0 hp1 hu, wilsonU_le_one hp0 hp1 hu⟩

/-- Closed witness for the hypotheses of `wilson_score_contract`, at
`positive = 3`, `total = 4`. -/
theorem wilson_score_contract_witness :
    calculate_wilson_score 5 0 2 = 0 ∧
    calculate_wilson_score 3 4 2 = wilson_spec 3 4 2 ∧
    (0 ≤ calculate_wilson_score 3 4 1.96 ∧ calculate_wilson_score 3 4 1.96 ≤ 1) :=
  ⟨wilson_score_contract.1 5 2, wilson_score_contract.2.1 3 4 2,
    wilson_score_contract.2.2 3 4 (by decide) (by decide)⟩

/-- C7: for a fixed positive total and `z = 1.96`, the Wilson score is
monotonically non-decreasing in the positive count. -/
theorem wilson_score_monotone_in_positive (p₁ p₂ total : ℕ) (ht : 1 ≤ total)
    (h12 : p₁ ≤ p₂) (h2t : p₂ ≤ total) :
    calculate_wilson_score p₁ total 1.96 ≤ calculate_wilson_score p₂ total 1.96 := by
  have hz : (0:ℝ) ≤ 1.96 := by norm_num
  have ht0 : (0:ℝ) < (total : ℝ) := by exact_mod_cast (ht : 0 < total)
  rw [calculate_wilson_score_eq_wilsonU p₁ total 1.96 ht hz (le_trans h12 h2t),
    calculate_wilson_score_eq_wilsonU p₂ total 1.96 ht hz h2t]
  apply wilsonU_mono
  · exact div_nonneg (Nat.cast_nonneg _) ht0.le
  · gcongr
  · rw [div_le_one ht0]; exact_mod_cast h2t
  · positivity

/-- Closed witness for the hypotheses of
`wilson_score_monotone_in_positive`, at `total = 1`. -/
theorem wilson_score_monotone_in_positive_witness :
    calculate_wilson_score 0 1 1.96 ≤ calculate_wilson_score 1 1 1.96 :=
  wilson_score_monotone_in_positive 0 1 1 (by decide) (by decide) (by decide)

/-- C10: with zero positive reports the centre and margin terms cancel and the
Wilson score is exactly 0, for every positive total and nonnegative `z`. -/
theorem wilson_score_zero_positive (total : ℕ) (z : ℝ) (ht : 1 ≤ total)
    (hz : 0 ≤ z) : calculate_wilson_score 0 total z = 0 := by
  have ht0 : (0:ℝ) < (total : ℝ) := by exact_mod_cast (ht : 0 < total)
  unfold calculate_wilson_score
  rw [if_neg (by omega : ¬ total = 0)]
  have harg : ((((0:ℕ):ℝ) / (total : ℝ)) * (1 - (((0:ℕ):ℝ) / (total : ℝ))) +
      z * z / (4 * (total : ℝ))) / (total : ℝ) = (z / (2 * (total : ℝ))) ^ 2 := by
    rw [Nat.cast_zero]
    field_simp
    ring
  rw [harg, Real.sqrt_sq (by positivity)]
  rw [div_eq_zero_iff]
  left
  rw [Nat.cast_zero]
  field_simp

/-- Closed witness for the hypotheses of `wilson_score_zero_positive`, at
`total = 7`, `z = 1.96`. -/
theorem wilson_score_zero_positive_witness :
    calculate_wilson_score 0 7 1.96 = 0 :=
  wilson_score_zero_positive 7 1.96 (by decide) (by norm_num)

/-- Exact numeric bound: the Wilson lower bound for 45 verified out of 90 at
`z = 1.96` is at most 0.4 (its value is ≈ 0.3988, not ≈ 0.55). -/
theorem wilson_45_90_le_two_fifths : calculate_wilson_score 45 90 1.96 ≤ 0.4 := by
  unfold calculate_wilson_score
  rw [if_neg (by norm_num : ¬ (90:ℕ) = 0)]
  have hc45 : ((45:ℕ):ℝ) = 45 := by norm_num
  have hc90 : ((90:ℕ):ℝ) = 90 := by norm_num
  rw [hc45, hc90]
  have harg : ((45:ℝ)/90 * (1 - 45/90) + 1.96 * 1.96 / (4 * 90)) / 90 =
      58651/20250000 := by norm_num
  rw [harg]
  have hsq : (58651/1102500:ℝ) ≤ Real.sqrt (58651/20250000) := by
    rw [Real.le_sqrt (by norm_num) (by norm_num)]
    norm_num
  have hmul : (1.96:ℝ) * (58651/1102500) ≤ 1.96 * Real.sqrt (58651/20250000) := by
    exact mul_le_mul_of_nonneg_left hsq (by norm_num)
  rw [div_le_iff (by norm_num : (0:ℝ) < 1 + 1.96 * 1.96 / 90)]
  nlinarith [hmul]

/-- C3 counterexample: after an update reaching 45 positive out of 90 total,
the standing computed by `update_user_reputation` is `"new"`, not
`"trusted"` — the Wilson score of (45, 90) is ≈ 0.3988 ≤ 0.4, not ≈ 0.55. -/
theorem standing_45_90_is_new_not_trusted :
    community_standing (calculate_wilson_score 45 90 1.96) 90 = "new" ∧
    community_standing (calculate_wilson_score 45 90 1.96) 90 ≠ "trusted" := by
  have hle := wilson_45_90_le_two_fifths
  have hnew : community_standing (calculate_wilson_score 45 90 1.96) 90 = "new" := by
    unfold community_standing
    rw [if_neg (by norm_num : ¬ (90:ℕ) < 10)]
    rw [if_neg (fun hc => absurd hc.1 (by norm_num; linarith))]
    rw [if_neg (fun hc => absurd hc.1 (by norm_num; linarith))]
    rw [if_neg (by norm_num; linarith)]
  exact ⟨hnew, by rw [hnew]; decide⟩

/-- C3 amended: the standing rules are evaluated in the stated priority order
with the first match winning; any total below 10 yields `"new"`; and for
45 positive out of 90 total the standing is `"new"` (not `"trusted"`), since
the Wilson score ≈ 0.3988 does not exceed 0.4. -/
theorem standing_priority_order :
    (∀ (s : ℝ) (t : ℕ), t < 10 → community_standing s t = "new") ∧
    (∀ (s : ℝ) (t : ℕ), ¬ t < 10 → s > 0.8 ∧ t > 50 →
      community_standing s t = "expert") ∧
    (∀ (s : ℝ) (t : ℕ), ¬ t < 10 → ¬(s > 0.8 ∧ t > 50) → s > 0.6 ∧ t > 20 →
      community_standing s t = "verified") ∧
    (∀ (s : ℝ) (t : ℕ), ¬ t < 10 → ¬(s > 0.8 ∧ t > 50) → ¬(s > 0.6 ∧ t > 20) →
      s > 0.4 → community_standing s t = "trusted") ∧
    (∀ (s : ℝ) (t : ℕ), ¬ t < 10 → ¬(s > 0.8 ∧ t > 50) → ¬(s > 0.6 ∧ t > 20) →
      ¬ s > 0.4 → community_standing s t = "new") ∧
    community_standing (calculate_wilson_score 45 90 1.96) 90 = "new" := by
  refine ⟨?_, ?_, ?_, ?_, ?_, ?_⟩
  · intro s t h1
    unfold community_standing
    rw [if_pos h1]
  · intro s t h1 h2
    unfold community_standing
    rw [if_neg h1, if_pos h2]
  · intro s t h1 h2 h3
    unfold community_standing
    rw [if_neg h1, if_neg h2, if_pos h3]
  · intro s t h1 h2 h3 h4
    unfold community_standing
    rw [if_neg h1, if_neg h2, if_neg h3, if_pos h4]
  · intro s t h1 h2 h3 h4
    unfold community_standing
    rw [if_neg h1, if_neg h2, if_neg h3, if_neg h4]
  · have hle := wilson_45_90_le_two_fifths
    unfold community_standing
    rw [if_neg (by norm_num : ¬ (90:ℕ) < 10)]
    rw [if_neg (fun hc => absurd hc.1 (by norm_num; linarith))]
    rw [if_neg (fun hc => absurd hc.1 (by norm_num; linarith))]
    rw [if_neg (by norm_num; linarith)]

/-- Closed witness for the hypotheses of `standing_priority_order`: one
concrete classification per rule. -/
theorem standing_priority_order_witness :
    community_standing 0.5 5 = "new" ∧
    community_standing 0.9 60 = "expert" ∧
    community_standing 0.7 30 = "verified" ∧
    community_standing 0.5 30 = "trusted" ∧
    community_standing 0.3 30 = "new" :=
  ⟨standing_priority_order.1 0.5 5 (by norm_num),
   standing_priority_order.2.1 0.9 60 (by norm_num) ⟨by norm_num, by norm_num⟩,
   standing_priority_order.2.2.1 0.7 30 (by norm_num)
     (fun hc => absurd hc.2 (by norm_num)) ⟨by norm_num, by norm_num⟩,
   standing_priority_order.2.2.2.1 0.5 30 (by norm_num)
     (fun hc => absurd hc.1 (by norm_num)) (fun hc => absurd hc.1 (by norm_num))
     (by norm_num),
   standing_priority_order.2.2.2.2.1 0.3 30 (by norm_num)
     (fun hc => absurd hc.1 (by norm_num)) (fun hc => absurd hc.1 (by norm_num))
     (by norm_num)⟩

/-! ## Claim theorems: route optimizer -/

/-- C4: `time_weight = 0.3 + (safety_preference/100)·0.4` and
`safety_weight = 1 − time_weight` always sum to 1; the floor at preference 0
is 0.3 and the ceiling at preference 100 is 0.7; and every calculated route
(real or fallback) carries exactly these weights. -/
theorem route_weights_sum_to_one :
    (∀ sp : ℚ, 0 ≤ sp → sp ≤ 100 → time_weight sp + safety_weight sp = 1) ∧
    time_weight 0 = 0.3 ∧ time_weight 100 = 0.7 ∧
    (∀ (env : SafetyEnv) (rand : ℕ → ℤ) (outcome : OSRMOutcome) (req : RouteRequest),
      (calculate_route env rand outcome req).balanced.time_weight =
          time_weight req.safety_preference ∧
        (calculate_route env rand outcome req).balanced.safety_weight =
          safety_weight req.safety_preference) := by
  refine ⟨fun sp _ _ => by unfold safety_weight; ring,
    by norm_num [time_weight], by norm_num [time_weight], ?_⟩
  intro env rand outcome req
  unfold calculate_route
  rcases h : osrm_get_route outcome with _ | ⟨rd, rest⟩
  · exact ⟨rfl, rfl⟩
  · exact ⟨rfl, rfl⟩

/-- Closed witness for the hypotheses of `route_weights_sum_to_one`, at
safety preference 80 and an unavailable provider. -/
theorem route_weights_sum_to_one_witness :
    time_weight 80 + safety_weight 80 = 1 ∧
    (calculate_route env_zero rand_zero .unavailable chennai_request).balanced.time_weight =
      time_weight 80 :=
  ⟨route_weights_sum_to_one.1 80 (by norm_num) (by norm_num),
   (route_weights_sum_to_one.2.2.2 env_zero rand_zero .unavailable chennai_request).1⟩

/-- C5 (code bug): on every provider-failure outcome, `get_route` hands back
its placeholder response, whose routes list is non-empty; `calculate_route`
therefore takes the normal path — never `_create_mock_route` — and returns
exactly one route whose distance is 0, not a positive-distance fallback
route, for the distinct valid Chennai coordinates. -/
theorem provider_failure_yields_zero_distance_route :
    ((calculate_route env_zero rand_zero .unavailable chennai_request).routes.map
        (fun r => r.distance_meters) = [0]) ∧
    ((calculate_route env_zero rand_zero .timeout chennai_request).routes.map
        (fun r => r.distance_meters) = [0]) ∧
    ((calculate_route env_zero rand_zero .routingFailed chennai_request).routes.map
        (fun r => r.distance_meters) = [0]) ∧
    ((calculate_route env_zero rand_zero .badRequest chennai_request).routes.map
        (fun r => r.distance_meters) = [0]) ∧
    ((calculate_route env_zero rand_zero .requestError chennai_request).routes.map
        (fun r => r.distance_meters) = [0]) := by
  refine ⟨?_, ?_, ?_, ?_, ?_⟩ <;>
    simp [calculate_route, osrm_get_route, osrm_placeholder_route]

/-- The first route of an OSRM success reaches the normal path of `calculate_route`; its alternatives scale the primary duration by 1.3 / 0.7 through
`int()`, and `balanced` is the primary route itself. -/
theorem calculate_route_ok_alternatives (env : SafetyEnv) (rand : ℕ → ℤ)
    (rd : OSRMRouteData) (rest : List OSRMRouteData) (req : RouteRequest) :
    (calculate_route env rand (.ok (rd :: rest)) req).safest.duration_seconds =
        ((pyInt (rd.duration_seconds * 1.3) : ℤ) : ℚ) ∧
    (calculate_route env rand (.ok (rd :: rest)) req).fastest.duration_seconds =
        ((pyInt (rd.duration_seconds * 0.7) : ℤ) : ℚ) ∧
    (calculate_route env rand (.ok (rd :: rest)) req).balanced.duration_seconds =
        rd.duration_seconds ∧
    (calculate_route env rand (.ok (rd :: rest)) req).routes =
        [(calculate_route env rand (.ok (rd :: rest)) req).balanced] := by
  refine ⟨rfl, rfl, rfl, rfl⟩

/-- Ordering of the truncated scalings: for a duration of at least 10/3
seconds, `int(d · 0.7) < d < int(d · 1.3)`. -/
theorem pyInt_scale_order {d : ℚ} (hd : 10/3 ≤ d) :
    ((pyInt (d * 0.7) : ℤ) : ℚ) < d ∧ d < ((pyInt (d * 1.3) : ℤ) : ℚ) := by
  have hd0 : (0:ℚ) < d := lt_of_lt_of_le (by norm_num) hd
  have h07 : (0:ℚ) ≤ d * 0.7 := by nlinarith
  have h13 : (0:ℚ) ≤ d * 1.3 := by nlinarith
  constructor
  · rw [pyInt_of_nonneg h07]
    have hfl : ((⌊d * 0.7⌋ : ℤ) : ℚ) ≤ d * 0.7 := Int.floor_le _
    nlinarith
  · rw [pyInt_of_nonneg h13]
    have h1 : d + 1 ≤ d * 1.3 := by nlinarith
    have h3 : ⌊d + 1⌋ ≤ ⌊d * 1.3⌋ := Int.floor_le_floor h1
    rw [Int.floor_add_one] at h3
    have h4 : d < (⌊d⌋ : ℚ) + 1 := Int.lt_floor_add_one _
    have h5 : ((⌊d⌋ + 1 : ℤ) : ℚ) ≤ ((⌊d * 1.3⌋ : ℤ) : ℚ) := by exact_mod_cast h3
    push_cast at h5
    linarith

/-- C9 amended: every route calculation — real OSRM route, failure
placeholder, or mock fallback alike — carries the three named alternatives,
with the safest duration the primary duration scaled by 1.3 and the fastest
scaled by 0.7 (each truncated by `int()`), and the balanced route identical
to the primary; the strict ordering
`safest.duration > balanced.duration > fastest.duration` holds whenever the
primary duration is at least 10/3 seconds (truncation collapses it below
that, e.g. at the zero-duration placeholder or a 3-second primary). -/
theorem route_alternatives_scaling_and_order (env : SafetyEnv) (rand : ℕ → ℤ)
    (outcome : OSRMOutcome) (req : RouteRequest) :
    (calculate_route env rand outcome req).routes =
        [(calculate_route env rand outcome req).balanced] ∧
    (calculate_route env rand outcome req).safest.duration_seconds =
        ((pyInt ((calculate_route env rand outcome req).balanced.duration_seconds
          * 1.3) : ℤ) : ℚ) ∧
    (calculate_route env rand outcome req).fastest.duration_seconds =
        ((pyInt ((calculate_route env rand outcome req).balanced.duration_seconds
          * 0.7) : ℤ) : ℚ) ∧
    (10/3 ≤ (calculate_route env rand outcome req).balanced.duration_seconds →
      (calculate_route env rand outcome req).fastest.duration_seconds <
          (calculate_route env rand outcome req).balanced.duration_seconds ∧
        (calculate_route env rand outcome req).balanced.duration_seconds <
          (calculate_route env rand outcome req).safest.duration_seconds) := by
  have hstruct : (calculate_route env rand outcome req).routes =
        [(calculate_route env rand outcome req).balanced] ∧
      (calculate_route env rand outcome req).safest.duration_seconds =
        ((pyInt ((calculate_route env rand outcome req).balanced.duration_seconds
          * 1.3) : ℤ) : ℚ) ∧
      (calculate_route env rand outcome req).fastest.duration_seconds =
        ((pyInt ((calculate_route env rand outcome req).balanced.duration_seconds
          * 0.7) : ℤ) : ℚ) := by
    unfold calculate_route
    rcases h : osrm_get_route outcome with _ | ⟨rd, rest⟩
    · exact ⟨rfl, rfl, rfl⟩
    · exact ⟨rfl, rfl, rfl⟩
  obtain ⟨h1, h2, h3⟩ := hstruct
  refine ⟨h1, h2, h3, fun hd => ?_⟩
  obtain ⟨hlt1, hlt2⟩ := pyInt_scale_order hd
  rw [h2, h3]
  exact ⟨hlt1, hlt2⟩

/-- Closed witness for the hypothesis of
`route_alternatives_scaling_and_order`, at a primary duration of 100 s. -/
theorem route_alternatives_scaling_and_order_witness :
    (calculate_route env_zero rand_zero
        (.ok [⟨1000, 100, [], ""⟩]) chennai_request).balanced.duration_seconds <
      (calculate_route env_zero rand_zero
        (.ok [⟨1000, 100, [], ""⟩]) chennai_request).safest.duration_seconds := by
  have h100 : (calculate_route env_zero rand_zero
      (.ok [⟨1000, 100, [], ""⟩]) chennai_request).balanced.duration_seconds = 100 := rfl
  have hd : (10:ℚ)/3 ≤ (calculate_route env_zero rand_zero
      (.ok [⟨1000, 100, [], ""⟩]) chennai_request).balanced.duration_seconds := by
    rw [h100]; norm_num
  exact ((route_alternatives_scaling_and_order env_zero rand_zero
    (.ok [⟨1000, 100, [], ""⟩]) chennai_request).2.2.2 hd).2

/-- C9 counterexample: at a primary duration of 3 s the duration of the safest alternative is `int(3 · 1.3) = 3`, equal to the balanced duration, so the claimed
strict ordering `safest.duration > balanced.duration` fails. -/
theorem route_alternatives_not_ordered_at_three_seconds :
    (calculate_route env_zero rand_zero
        (.ok [⟨500, 3, [], ""⟩]) chennai_request).safest.duration_seconds = 3 ∧
    (calculate_route env_zero rand_zero
        (.ok [⟨500, 3, [], ""⟩]) chennai_request).balanced.duration_seconds = 3 ∧
    ¬ ((calculate_route env_zero rand_zero
          (.ok [⟨500, 3, [], ""⟩]) chennai_request).balanced.duration_seconds <
        (calculate_route env_zero rand_zero
          (.ok [⟨500, 3, [], ""⟩]) chennai_request).safest.duration_seconds) := by
  have hs : (calculate_route env_zero rand_zero
      (.ok [⟨500, 3, [], ""⟩]) chennai_request).safest.duration_seconds =
        ((pyInt ((3:ℚ) * 1.3) : ℤ) : ℚ) := rfl
  have hb : (calculate_route env_zero rand_zero
      (.ok [⟨500, 3, [], ""⟩]) chennai_request).balanced.duration_seconds = 3 := rfl
  have hval : ((pyInt ((3:ℚ) * 1.3) : ℤ) : ℚ) = 3 := by norm_num [pyInt]
  refine ⟨by rw [hs, hval], hb, ?_⟩
  rw [hs, hval, hb]
  exact lt_irrefl 3
